import Mathlib

set_option maxHeartbeats 1000000

/-!
Shallow embedding of `src/MISGan/image_misgan_impute.py`.

The script is a launcher for MISGAN-style imputation training: it parses
CLI flags into an `args` namespace, optionally resumes from a checkpoint
(overwriting `args` with the saved ones), builds a run-name string,
constructs the dataset and the network modules, and hands everything to
the collaborator function `misgan_impute`.

External effects (the `%g` float formatter of Python, `datetime.now()`,
`torch.load` of a checkpoint file, `torch.cuda.device_count()`) are inputs
of the embedding, collected in `MainInputs`.  Python name resolution at
the dataset-construction site is modelled by a lookup in the module's
top-level name table, taken from the import statements and the top-level
definitions of the file.  The observable behaviour of a run is a trace of
events (prints, the checkpoint load, dataset/module constructions, the
single `misgan_impute` call) together with an optional raised exception.
-/

namespace MISGan

/-- Top-level names bound in the module `image_misgan_impute.py`:
the names bound by its import statements (lines 1-13) and the
module-level assignments and definitions (`use_cuda`, `device`,
`parallelize`, `main`).  Note that the dataset classes imported from
`masked_image` are `BlockMaskedImage` and `IndepMaskedImage`. -/
def moduleTopLevelNames : List String :=
  ["torch", "nn", "datetime", "Path", "argparse",
   "ConvDataGenerator", "ConvMaskGenerator",
   "ConvCritic",
   "BlockMaskedImage", "IndepMaskedImage",
   "UNetImputer",
   "misgan_impute",
   "use_cuda", "device", "parallelize", "main"]

/-- Python global-name resolution in this module: a name is defined
iff it is bound at the top level of the file. -/
def nameDefined (n : String) : Bool := moduleTopLevelNames.contains n

/-- The argparse namespace produced by `parser.parse_args()`: one field
per `add_argument` call (lines 28-62 of the source).  `--resume` and
`--pretrain` have no default, so they are `Option String` (`none` is
Python's `None`); `--imputeronly` is a `store_true` flag; `type=int`
flags are `Int`; `type=float` flags are modelled as `Rat`; the Python
field `prefix` is spelled `prefix_` because `prefix` is reserved in
Lean. -/
structure Args where
  resume : Option String
  data_dir : String
  workers : Int
  epoch : Int
  batch_size : Int
  pretrain : Option String
  imputeronly : Bool
  plot_interval : Int
  save_interval : Int
  prefix_ : String
  mask : String
  block_len : Int
  obs_prob : Rat
  obs_prob_high : Option Rat
  tau : Rat
  alpha : Rat
  beta : Rat
  gamma : Rat
  maskgen : String
  gp_lambda : Rat
  n_critic : Int
  n_latent : Int
deriving DecidableEq

/-- The flag strings of the `parser.add_argument` calls of `main`, in
source order (lines 28-62). -/
def addArgumentCalls : List String :=
  ["--resume", "--data-dir", "--workers", "--epoch", "--batch-size",
   "--pretrain", "--imputeronly", "--plot-interval", "--save-interval",
   "--prefix", "--mask", "--block-len", "--obs-prob", "--obs-prob-high",
   "--tau", "--alpha", "--beta", "--gamma", "--maskgen", "--gp-lambda",
   "--n-critic", "--n-latent"]

/-- The parsed args when every flag keeps its declared default. -/
def defaultArgs : Args :=
  { resume := none
    data_dir := "dataset"
    workers := 0
    epoch := 1000
    batch_size := 2
    pretrain := none
    imputeronly := false
    plot_interval := 50
    save_interval := 499
    prefix_ := "impute"
    mask := "block"
    block_len := 48
    obs_prob := 8/10
    obs_prob_high := none
    tau := 1/2
    alpha := 1/10
    beta := 1/10
    gamma := 0
    maskgen := "fusion"
    gp_lambda := 10
    n_critic := 5
    n_latent := 128 }

/-- Python truthiness of an optional string: `None` and the empty
string are falsy, every other string is truthy. -/
def truthy : Option String → Bool
  | none => false
  | some s => s ≠ ""

/-- Exceptions the visible code can raise. -/
inductive PyError
  | nameError (n : String)
  | notImplementedError
  | assertionError
deriving DecidableEq

/-- The `hard_sigmoid` value computed from `args.maskgen`
(lines 87-94): `False`, `True`, or the tuple `(-.1, 1.1)`. -/
inductive HardSigmoidArg
  | ofBool (b : Bool)
  | ofPair (lo hi : Rat)
deriving DecidableEq

/-- Dispatch on `args.maskgen` (lines 87-94); `none` stands for the
`raise NotImplementedError` branch. -/
def hardSigmoidOf (maskgen : String) : Option HardSigmoidArg :=
  if maskgen = "sigmoid" then some (.ofBool false)
  else if maskgen = "hardsigmoid" then some (.ofBool true)
  else if maskgen = "fusion" then some (.ofPair (-(1/10)) (11/10))
  else none

/-- Neural-network module values constructed by the wiring code. -/
inductive NNModule
  | convDataGenerator
  | convMaskGenerator (hard_sigmoid : HardSigmoidArg)
  | unetImputer
  | convCritic (n_channels : Nat)
  | dataParallel (inner : NNModule)
deriving DecidableEq

/-- Embedding of the module-level helper `parallelize` (lines 20-21):
wraps a module in `nn.DataParallel` (the `.to(device)` move is not
observable in this model). -/
def parallelize (m : NNModule) : NNModule := .dataParallel m

/-- Dataset values the code tries to construct (lines 118-124).  The
constructor names record the classes the code refers to. -/
inductive Dataset
  | indepMaskedCelebA (data_dir : String) (obs_prob : Rat) (obs_prob_high : Option Rat)
  | blockMaskedCelebA (data_dir : String) (block_len : Option Int)
deriving DecidableEq

/-- The checkpoint dictionary loaded by `torch.load`.  Only its
`args` entry is read by this file; the remaining entries (model and
optimizer state) are opaque to it and are elided. -/
structure Checkpoint where
  args : Args
deriving DecidableEq

/-- The argument tuple of the single `misgan_impute(...)` call
(lines 137-139). -/
structure MisganCall where
  args : Args
  data_gen : NNModule
  mask_gen : NNModule
  imputer : NNModule
  data_critic : NNModule
  mask_critic : NNModule
  impu_critic : NNModule
  data : Dataset
  output_dir : String
  checkpoint : Option Checkpoint
deriving DecidableEq

/-- Observable events of a run of `main`. -/
inductive Event
  | printed (s : String)
  | checkpointLoaded (path : String)
  | datasetConstructed (d : Dataset)
  | moduleConstructed (m : NNModule)
  | misganCalled (c : MisganCall)
deriving DecidableEq

/-- Test for a module-construction event. -/
def isModuleConstructed : Event → Bool
  | .moduleConstructed _ => true
  | _ => false

/-- Test for a `misgan_impute` call event. -/
def isMisganCalled : Event → Bool
  | .misganCalled _ => true
  | _ => false

/-- Number of module-construction events in a trace. -/
def moduleConstructedCount (evs : List Event) : Nat :=
  evs.countP fun e => isModuleConstructed e

/-- Number of `misgan_impute` call events in a trace. -/
def misganCalledCount (evs : List Event) : Nat :=
  evs.countP fun e => isMisganCalled e

/-- External inputs of one invocation of `main`: the parsed
command-line args, the `args` entry of the checkpoint that
`torch.load` would return (only consulted when `--resume` is truthy),
the `datetime.now().strftime` timestamp, the CUDA device count, and
the `%g` float formatter of Python's `format` (library behaviour, not
part of this file). -/
structure MainInputs where
  cmdArgs : Args
  savedArgs : Args
  timestamp : String
  n_gpu : Nat
  gfmt : Rat → String

/-- The resume block's overwrite loop (lines 72-75): every attribute
of the saved args except the key `resume` overwrites the parsed one.
The saved namespace was written by this same script, so it carries
exactly the fields of `Args`. -/
def applyCheckpointArgs (cmd saved : Args) : Args :=
  { saved with resume := cmd.resume }

/-- The args in effect after the resume block: overwritten from the
checkpoint when `--resume` is truthy, otherwise the parsed args. -/
def effectiveArgs (inp : MainInputs) : Args :=
  if truthy inp.cmdArgs.resume then applyCheckpointArgs inp.cmdArgs inp.savedArgs
  else inp.cmdArgs

/-- The checkpoint object in scope after the resume block: the loaded
dictionary when resuming, else the initial `None` (line 66). -/
def loadedCheckpoint (inp : MainInputs) : Option Checkpoint :=
  if truthy inp.cmdArgs.resume then some ⟨inp.savedArgs⟩ else none

/-- The local `block_len` after line 84: `None` when the flag is 0. -/
def blockLenOpt (l : Int) : Option Int :=
  if l = 0 then none else some l

/-- The expression `block_len if block_len else 'varsize'` of
line 103, with Python truthiness of `Optional[int]`. -/
def blockLenStr : Option Int → String
  | none => "varsize"
  | some l => if l = 0 then "varsize" else toString l

/-- The `mask_str` dispatch (lines 96-104); `none` stands for the
`raise NotImplementedError` branch. -/
def maskStrOf (g : Rat → String) (mask : String) (obs_prob : Rat)
    (obs_prob_high : Option Rat) (block_len : Option Int) : Option String :=
  if mask = "indep" then
    match obs_prob_high with
    | none => some ("indep_" ++ g obs_prob)
    | some hi => some ("indep_" ++ g obs_prob ++ "_" ++ g hi)
  else if mask = "block" then
    some ("block_" ++ blockLenStr block_len)
  else none

/-- Python's `'_'.join`. -/
def joinUnderscore : List String → String
  | [] => ""
  | [s] => s
  | s :: rest => s ++ "_" ++ joinUnderscore rest

/-- The run-name string `path` (lines 106-112):
`'{}_{}_{}'.format(args.prefix, timestamp, '_'.join([...]))`. -/
def pathOf (g : Rat → String) (prefix_ ts : String)
    (tau alpha beta gamma : Rat) (maskgen mask_str : String) : String :=
  prefix_ ++ "_" ++ ts ++ "_" ++
    joinUnderscore
      ["tau_" ++ g tau,
       "maskgen_" ++ maskgen,
       "coef_" ++ g alpha ++ "_" ++ g beta ++ "_" ++ g gamma,
       mask_str]

/-- The dataset construction (lines 118-124): the code names the
classes `IndepMaskedCelebA` and `BlockMaskedCelebA`; Python resolves
each name in the module's globals before calling it, and raises
`NameError` when it is unbound.  The final branch is unreachable:
the dispatch of lines 96-104 has already raised for any other mask
(were it reached, the later use of the unassigned local `data` would
raise Python's unbound-name error, modelled as a name error too). -/
def constructDataset (args : Args) (block_len : Option Int) : Except PyError Dataset :=
  if args.mask = "indep" then
    if nameDefined "IndepMaskedCelebA" then
      .ok (.indepMaskedCelebA args.data_dir args.obs_prob args.obs_prob_high)
    else .error (.nameError "IndepMaskedCelebA")
  else if args.mask = "block" then
    if nameDefined "BlockMaskedCelebA" then
      .ok (.blockMaskedCelebA args.data_dir block_len)
    else .error (.nameError "BlockMaskedCelebA")
  else .error (.nameError "data")

/-- The wiring tail of `main` (lines 127-139): print the GPU count,
construct the six network modules (data generator, mask generator,
imputer, and the three critics), and call `misgan_impute` once with
all of them, the dataset, the output directory and the checkpoint. -/
def wireAndCall (n_gpu : Nat) (args : Args) (hard_sigmoid : HardSigmoidArg)
    (data : Dataset) (output_dir : String) (checkpoint : Option Checkpoint) :
    List Event × MisganCall :=
  let data_gen := parallelize .convDataGenerator
  let mask_gen := parallelize (.convMaskGenerator hard_sigmoid)
  let imputer := NNModule.unetImputer
  let data_critic := parallelize (.convCritic 3)
  let mask_critic := parallelize (.convCritic 1)
  let impu_critic := parallelize (.convCritic 3)
  let call : MisganCall :=
    { args := args
      data_gen := data_gen
      mask_gen := mask_gen
      imputer := imputer
      data_critic := data_critic
      mask_critic := mask_critic
      impu_critic := impu_critic
      data := data
      output_dir := output_dir
      checkpoint := checkpoint }
  ([.printed ("Use " ++ toString n_gpu ++ " GPUs."),
    .moduleConstructed data_gen,
    .moduleConstructed mask_gen,
    .moduleConstructed imputer,
    .moduleConstructed data_critic,
    .moduleConstructed mask_critic,
    .moduleConstructed impu_critic,
    .misganCalled call], call)

/-- One invocation of `main` (lines 64-139), as the trace of events it
produces and the exception it raises (`none` when it returns
normally).  Control flow in order: the resume block (print, load,
overwrite args), the `imputeronly` assertion, the `hard_sigmoid`
dispatch, the `mask_str` dispatch, the run-name and output-directory
computation (printed only when not resuming; `args.resume` is
unchanged by the overwrite, so the line-113 test agrees with the
line-67 one), the dataset construction, and the wiring tail. -/
def mainRun (inp : MainInputs) : List Event × Option PyError :=
  let args0 := inp.cmdArgs
  let resumed := truthy args0.resume
  let resumeEvents : List Event :=
    if resumed then
      [.printed ("Resume: " ++ args0.resume.getD ""),
       .checkpointLoaded (args0.resume.getD "" ++ "/log/checkpoint.pth")]
    else []
  let checkpoint := loadedCheckpoint inp
  let args := effectiveArgs inp
  if args.imputeronly && args.pretrain.isNone then
    (resumeEvents, some .assertionError)
  else
    let block_len := blockLenOpt args.block_len
    match hardSigmoidOf args.maskgen with
    | none => (resumeEvents, some .notImplementedError)
    | some hard_sigmoid =>
      match maskStrOf inp.gfmt args.mask args.obs_prob args.obs_prob_high block_len with
      | none => (resumeEvents, some .notImplementedError)
      | some mask_str =>
        let path := pathOf inp.gfmt args.prefix_ inp.timestamp
          args.tau args.alpha args.beta args.gamma args.maskgen mask_str
        let output_dir :=
          if resumed then args0.resume.getD "" else "results/celeba/" ++ path
        let printEvents : List Event :=
          if resumed then [] else [.printed output_dir]
        match constructDataset args block_len with
        | .error e => (resumeEvents ++ printEvents, some e)
        | .ok data =>
          let wired := wireAndCall inp.n_gpu args hard_sigmoid data output_dir checkpoint
          (resumeEvents ++ printEvents ++ [.datasetConstructed data] ++ wired.1, none)

/-- Constant formatter used to instantiate the `%g` input concretely. -/
def gZero : Rat → String := fun _ => "0"

/-- Concrete invocation: every flag at its default. -/
def inpDefault : MainInputs :=
  { cmdArgs := defaultArgs
    savedArgs := defaultArgs
    timestamp := "0101.000000"
    n_gpu := 0
    gfmt := gZero }

/-- Sample dataset value for instantiating the wiring tail. -/
def dataSample : Dataset := .blockMaskedCelebA "dataset" (some 48)

/-- Sample hard-sigmoid value (the `fusion` tuple). -/
def hsSample : HardSigmoidArg := .ofPair (-(1/10)) (11/10)

/-- Saved checkpoint args differing from the defaults in `epoch` and
`mask`. -/
def savedAltered : Args := { defaultArgs with epoch := 7, mask := "indep" }

/-- Concrete resuming invocation: `--resume results/celeba/run1` on
the command line, checkpoint saved with `savedAltered`. -/
def inpResume : MainInputs :=
  { cmdArgs := { defaultArgs with resume := some "results/celeba/run1" }
    savedArgs := savedAltered
    timestamp := "0101.000000"
    n_gpu := 0
    gfmt := gZero }

/-- Concrete invocation violating the C7 equivalence: `--imputeronly`
without `--pretrain`, and an unrecognised maskgen. -/
def inpC7 : MainInputs :=
  { cmdArgs := { defaultArgs with imputeronly := true, maskgen := "foo" }
    savedArgs := defaultArgs
    timestamp := "0101.000000"
    n_gpu := 0
    gfmt := gZero }

/-- Concrete invocation with only the maskgen unrecognised. -/
def inpBadMaskgen : MainInputs :=
  { cmdArgs := { defaultArgs with maskgen := "foo" }
    savedArgs := defaultArgs
    timestamp := "0101.000000"
    n_gpu := 0
    gfmt := gZero }

/-! Helper lemmas shared by the claim theorems. -/

/-- Neither dataset class name referred to at the construction site is
bound in the module, so the construction never succeeds. -/
theorem constructDataset_not_ok (a : Args) (bl : Option Int) (d : Dataset) :
    constructDataset a bl ≠ Except.ok d := by
  unfold constructDataset
  have h1 : nameDefined "IndepMaskedCelebA" = false := by decide
  have h2 : nameDefined "BlockMaskedCelebA" = false := by decide
  rw [h1, h2]
  split <;> [simp; split <;> simp]

/-- Whatever the invocation, the trace of `main` never contains a
module construction, a dataset construction, or a `misgan_impute`
call: every path raises before the wiring tail. -/
theorem mainRun_no_construction (inp : MainInputs) :
    ∀ e ∈ (mainRun inp).1, isModuleConstructed e = false ∧ isMisganCalled e = false ∧
      ∀ d : Dataset, e ≠ Event.datasetConstructed d := by
  intro e he
  simp only [mainRun] at he
  split at he
  · split at he <;> cases e <;> simp_all [isModuleConstructed, isMisganCalled]
  · split at he
    · split at he <;> cases e <;> simp_all [isModuleConstructed, isMisganCalled]
    · split at he
      · split at he <;> cases e <;> simp_all [isModuleConstructed, isMisganCalled]
      · split at he
        · split at he <;> cases e <;> simp_all [isModuleConstructed, isMisganCalled]
        · exact absurd (by assumption) (constructDataset_not_ok _ _ _)

/-- With a recognised maskgen the dispatch of lines 87-94 succeeds. -/
theorem hardSigmoidOf_isSome (mg : String)
    (h : mg ∈ ["sigmoid", "hardsigmoid", "fusion"]) :
    ∃ hs, hardSigmoidOf mg = some hs := by
  simp only [List.mem_cons, List.not_mem_nil, or_false] at h
  rcases h with rfl | rfl | rfl <;> exact ⟨_, rfl⟩

/-- With a recognised mask the dispatch of lines 96-104 succeeds. -/
theorem maskStrOf_isSome (g : Rat → String) (mask : String) (op : Rat)
    (oph : Option Rat) (bl : Option Int) (h : mask ∈ ["indep", "block"]) :
    ∃ m, maskStrOf g mask op oph bl = some m := by
  simp only [List.mem_cons, List.not_mem_nil, or_false] at h
  rcases h with rfl | rfl
  · cases oph <;> exact ⟨_, rfl⟩
  · exact ⟨_, rfl⟩

/-- With a recognised mask the dataset construction raises the name
error of the class the code refers to. -/
theorem constructDataset_name_error (a : Args) (bl : Option Int)
    (h : a.mask ∈ ["indep", "block"]) :
    constructDataset a bl = Except.error (PyError.nameError
      (if a.mask = "indep" then "IndepMaskedCelebA" else "BlockMaskedCelebA")) := by
  simp only [List.mem_cons, List.not_mem_nil, or_false] at h
  have h1 : nameDefined "IndepMaskedCelebA" = false := by decide
  have h2 : nameDefined "BlockMaskedCelebA" = false := by decide
  rcases h with hm | hm <;> simp [constructDataset, hm, h1, h2]

/-- When the assertion and both dispatches pass, `main` ends in the
dataset-construction `NameError`. -/
theorem mainRun_name_error (inp : MainInputs)
    (h1 : ¬ ((effectiveArgs inp).imputeronly = true ∧ (effectiveArgs inp).pretrain = none))
    (h2 : (effectiveArgs inp).maskgen ∈ ["sigmoid", "hardsigmoid", "fusion"])
    (h3 : (effectiveArgs inp).mask ∈ ["indep", "block"]) :
    (mainRun inp).2 = some (PyError.nameError
      (if (effectiveArgs inp).mask = "indep" then "IndepMaskedCelebA"
       else "BlockMaskedCelebA")) := by
  have hassert : ¬ (((effectiveArgs inp).imputeronly
      && (effectiveArgs inp).pretrain.isNone) = true) := by
    simp only [Bool.and_eq_true, Option.isNone_iff_eq_none]
    exact fun hc => h1 ⟨hc.1, hc.2⟩
  obtain ⟨hs, hhs⟩ := hardSigmoidOf_isSome _ h2
  obtain ⟨m, hm⟩ := maskStrOf_isSome inp.gfmt _ (effectiveArgs inp).obs_prob
    (effectiveArgs inp).obs_prob_high (blockLenOpt (effectiveArgs inp).block_len) h3
  simp only [mainRun, if_neg hassert, hhs, hm,
    constructDataset_name_error _ _ h3]

/-- Every invocation of `main` raises some exception. -/
theorem mainRun_raises (inp : MainInputs) : (mainRun inp).2.isSome = true := by
  simp only [mainRun]
  split
  · rfl
  · split
    · rfl
    · split
      · rfl
      · split
        · rfl
        · exact absurd (by assumption) (constructDataset_not_ok _ _ _)

/-- C1: every invocation of `main` that reaches the dataset
construction (the `imputeronly` assertion passes, `args.maskgen` is
recognised, and `args.mask` is `indep` or `block`) raises a
`NameError` on the dataset constructor it refers to
(`IndepMaskedCelebA` resp. `BlockMaskedCelebA`), because neither name
is defined or imported in the module while the imported
`IndepMaskedImage` and `BlockMaskedImage` are unused; consequently no
invocation of `main` ever reaches the `misgan_impute` call. -/
theorem c1_dataset_name_error_misgan_unreachable (inp : MainInputs) :
    (∀ c : MisganCall, Event.misganCalled c ∉ (mainRun inp).1) ∧
    (mainRun inp).2.isSome = true ∧
    "IndepMaskedCelebA" ∉ moduleTopLevelNames ∧
    "BlockMaskedCelebA" ∉ moduleTopLevelNames ∧
    "IndepMaskedImage" ∈ moduleTopLevelNames ∧
    "BlockMaskedImage" ∈ moduleTopLevelNames ∧
    (¬ ((effectiveArgs inp).imputeronly = true ∧ (effectiveArgs inp).pretrain = none) →
      (effectiveArgs inp).maskgen ∈ ["sigmoid", "hardsigmoid", "fusion"] →
      (effectiveArgs inp).mask ∈ ["indep", "block"] →
      (mainRun inp).2 = some (PyError.nameError
        (if (effectiveArgs inp).mask = "indep" then "IndepMaskedCelebA"
         else "BlockMaskedCelebA"))) := by
  refine ⟨?_, mainRun_raises inp, by decide, by decide, by decide, by decide,
    fun h1 h2 h3 => mainRun_name_error inp h1 h2 h3⟩
  intro c hc
  have h := (mainRun_no_construction inp _ hc).2.1
  simp [isMisganCalled] at h

/-- Witness for C1: with every flag at its default (mask `block`,
maskgen `fusion`), `main` raises the `BlockMaskedCelebA` name
error. -/
theorem c1_witness :
    (mainRun inpDefault).2 = some (PyError.nameError "BlockMaskedCelebA") := by
  have h := (c1_dataset_name_error_misgan_unreachable inpDefault).2.2.2.2.2.2
    (by decide) (by decide) (by decide)
  rwa [if_neg (by decide : ¬ (effectiveArgs inpDefault).mask = "indep")] at h

/-- C2 counterexample: the all-defaults run constructs zero
neural-network modules (the dataset name error precedes the wiring
tail), and the wiring tail itself contains six module constructions;
neither count is five. -/
theorem c2_counterexample :
    moduleConstructedCount (mainRun inpDefault).1 ≠ 5 ∧
    moduleConstructedCount (mainRun inpDefault).1 = 0 ∧
    moduleConstructedCount
      (wireAndCall 0 defaultArgs hsSample dataSample "results/celeba/x" none).1 ≠ 5 ∧
    moduleConstructedCount
      (wireAndCall 0 defaultArgs hsSample dataSample "results/celeba/x" none).1 = 6 := by
  refine ⟨by decide, by decide, by decide, by decide⟩

/-- C2 (amended): the wiring section of `main` constructs exactly six
neural-network modules (data generator, mask generator, imputer, and
three critics), and no run ever executes it: every invocation
constructs zero modules, since the dataset name error is raised
first. -/
theorem c2_amended_six_modules (n : Nat) (args : Args) (hs : HardSigmoidArg)
    (d : Dataset) (o : String) (c : Option Checkpoint) (inp : MainInputs) :
    moduleConstructedCount (wireAndCall n args hs d o c).1 = 6 ∧
    moduleConstructedCount (mainRun inp).1 = 0 := by
  constructor
  · rfl
  · have h := mainRun_no_construction inp
    simp only [moduleConstructedCount]
    rw [List.countP_eq_zero]
    intro e he
    simpa using (h e he).1

/-- C6: the wiring pairs the data generator with a 3-channel critic,
the mask generator (carrying the maskgen-derived hard-sigmoid
configuration) with a 1-channel critic, and the UNet imputer with its
own 3-channel critic, and the resulting call record is what the
`misgan_impute` call event carries. -/
theorem c6_gan_wiring (n : Nat) (args : Args) (hs : HardSigmoidArg)
    (d : Dataset) (o : String) (c : Option Checkpoint) :
    (wireAndCall n args hs d o c).2.data_gen = parallelize NNModule.convDataGenerator ∧
    (wireAndCall n args hs d o c).2.data_critic = parallelize (NNModule.convCritic 3) ∧
    (wireAndCall n args hs d o c).2.mask_gen =
      parallelize (NNModule.convMaskGenerator hs) ∧
    (wireAndCall n args hs d o c).2.mask_critic = parallelize (NNModule.convCritic 1) ∧
    (wireAndCall n args hs d o c).2.imputer = NNModule.unetImputer ∧
    (wireAndCall n args hs d o c).2.impu_critic = parallelize (NNModule.convCritic 3) ∧
    Event.misganCalled (wireAndCall n args hs d o c).2 ∈ (wireAndCall n args hs d o c).1 := by
  refine ⟨rfl, rfl, rfl, rfl, rfl, rfl, ?_⟩
  simp [wireAndCall]

/-- C8: the parser registers 22 flags, which is about 20 (within two
of it). -/
theorem c8_flag_count :
    addArgumentCalls.length = 22 ∧
    ((addArgumentCalls.length : Int) - 20).natAbs ≤ 2 := by
  decide

/-- C9: the wiring tail calls `misgan_impute` exactly once, as its
very last action, passing the effective args, the dataset, the output
directory and the checkpoint (together with the six modules, whose
wiring claim C6 records). -/
theorem c9_single_misgan_call (n : Nat) (args : Args) (hs : HardSigmoidArg)
    (d : Dataset) (o : String) (c : Option Checkpoint) :
    misganCalledCount (wireAndCall n args hs d o c).1 = 1 ∧
    (wireAndCall n args hs d o c).1.getLast? =
      some (Event.misganCalled (wireAndCall n args hs d o c).2) ∧
    (wireAndCall n args hs d o c).2.args = args ∧
    (wireAndCall n args hs d o c).2.data = d ∧
    (wireAndCall n args hs d o c).2.output_dir = o ∧
    (wireAndCall n args hs d o c).2.checkpoint = c :=
  ⟨rfl, rfl, rfl, rfl, rfl, rfl⟩

/-- When resuming, the trace starts with the resume print and the
checkpoint load of `<resume>/log/checkpoint.pth`. -/
theorem mainRun_trace_of_resume (inp : MainInputs)
    (h : truthy inp.cmdArgs.resume = true) :
    ∃ rest, (mainRun inp).1 =
      [Event.printed ("Resume: " ++ inp.cmdArgs.resume.getD ""),
       Event.checkpointLoaded (inp.cmdArgs.resume.getD "" ++ "/log/checkpoint.pth")]
        ++ rest := by
  simp only [mainRun, h, if_true]
  split
  · exact ⟨[], rfl⟩
  · split
    · exact ⟨[], rfl⟩
    · split
      · exact ⟨[], rfl⟩
      · split
        · exact ⟨[], rfl⟩
        · exact absurd (by assumption) (constructDataset_not_ok _ _ _)

/-- When not resuming, the trace holds no checkpoint-load event. -/
theorem mainRun_no_load_of_no_resume (inp : MainInputs)
    (h : truthy inp.cmdArgs.resume = false) :
    ∀ e ∈ (mainRun inp).1, ∀ p, e ≠ Event.checkpointLoaded p := by
  intro e he
  simp only [mainRun, h, Bool.false_eq_true, if_false] at he
  split at he
  · simp at he
  · split at he
    · simp at he
    · split at he
      · simp at he
      · split at he
        · simp only [List.nil_append, List.mem_singleton] at he
          subst he
          intro p
          exact fun hc => Event.noConfusion hc
        · exact absurd (by assumption) (constructDataset_not_ok _ _ _)

/-- C3 counterexample: with `--resume results/celeba/run1` and a
checkpoint whose saved epoch is 7, `main` itself loads
`results/celeba/run1/log/checkpoint.pth` and applies the saved args:
the effective epoch becomes 7 although the command line parsed
1000. -/
theorem c3_counterexample :
    Event.checkpointLoaded "results/celeba/run1/log/checkpoint.pth"
      ∈ (mainRun inpResume).1 ∧
    (effectiveArgs inpResume).epoch = 7 ∧
    inpResume.cmdArgs.epoch = 1000 := by
  refine ⟨?_, by decide, by decide⟩
  obtain ⟨rest, hr⟩ := mainRun_trace_of_resume inpResume (by decide)
  rw [hr]
  simp only [List.cons_append, List.mem_cons]
  exact Or.inr (Or.inl (by decide))

/-- C3 (amended): the checkpoint load and the application of the
saved args are performed by `main` itself when `--resume` is set:
`main` loads `<resume>/log/checkpoint.pth` and overwrites the parsed
args with the saved ones (except `resume`), then hands the loaded
checkpoint on to `misgan_impute`; only without `--resume` does `main`
perform no checkpoint work. -/
theorem c3_amended_resume_in_main (inp : MainInputs) :
    (truthy inp.cmdArgs.resume = true →
      Event.checkpointLoaded (inp.cmdArgs.resume.getD "" ++ "/log/checkpoint.pth")
        ∈ (mainRun inp).1 ∧
      effectiveArgs inp = applyCheckpointArgs inp.cmdArgs inp.savedArgs ∧
      loadedCheckpoint inp = some ⟨inp.savedArgs⟩) ∧
    (truthy inp.cmdArgs.resume = false →
      (∀ p, Event.checkpointLoaded p ∉ (mainRun inp).1) ∧
      effectiveArgs inp = inp.cmdArgs ∧
      loadedCheckpoint inp = none) := by
  constructor
  · intro h
    obtain ⟨rest, hr⟩ := mainRun_trace_of_resume inp h
    refine ⟨?_, by simp [effectiveArgs, h], by simp [loadedCheckpoint, h]⟩
    rw [hr]
    simp
  · intro h
    refine ⟨?_, by simp [effectiveArgs, h], by simp [loadedCheckpoint, h]⟩
    intro p hp
    exact mainRun_no_load_of_no_resume inp h _ hp p rfl

/-- Witness for C3's amended claim at the two concrete invocations. -/
theorem c3_amended_witness :
    Event.checkpointLoaded "results/celeba/run1/log/checkpoint.pth"
      ∈ (mainRun inpResume).1 ∧
    effectiveArgs inpResume = applyCheckpointArgs inpResume.cmdArgs inpResume.savedArgs ∧
    loadedCheckpoint inpDefault = none := by
  have h1 := (c3_amended_resume_in_main inpResume).1 (by decide)
  have h2 := (c3_amended_resume_in_main inpDefault).2 (by decide)
  exact ⟨by simpa using h1.1, h1.2.1, h2.2.2⟩

/-- C4: when `--resume` is truthy, every checkpoint-saved argument
except the key `resume` overwrites the parsed value, and only the
`resume` field keeps its command-line value; when `--resume` is not
set, the parsed args are left unchanged. -/
theorem c4_resume_overwrites_all_but_resume (inp : MainInputs) :
    (truthy inp.cmdArgs.resume = true →
      (effectiveArgs inp).resume = inp.cmdArgs.resume ∧
      (effectiveArgs inp).data_dir = inp.savedArgs.data_dir ∧
      (effectiveArgs inp).workers = inp.savedArgs.workers ∧
      (effectiveArgs inp).epoch = inp.savedArgs.epoch ∧
      (effectiveArgs inp).batch_size = inp.savedArgs.batch_size ∧
      (effectiveArgs inp).pretrain = inp.savedArgs.pretrain ∧
      (effectiveArgs inp).imputeronly = inp.savedArgs.imputeronly ∧
      (effectiveArgs inp).plot_interval = inp.savedArgs.plot_interval ∧
      (effectiveArgs inp).save_interval = inp.savedArgs.save_interval ∧
      (effectiveArgs inp).prefix_ = inp.savedArgs.prefix_ ∧
      (effectiveArgs inp).mask = inp.savedArgs.mask ∧
      (effectiveArgs inp).block_len = inp.savedArgs.block_len ∧
      (effectiveArgs inp).obs_prob = inp.savedArgs.obs_prob ∧
      (effectiveArgs inp).obs_prob_high = inp.savedArgs.obs_prob_high ∧
      (effectiveArgs inp).tau = inp.savedArgs.tau ∧
      (effectiveArgs inp).alpha = inp.savedArgs.alpha ∧
      (effectiveArgs inp).beta = inp.savedArgs.beta ∧
      (effectiveArgs inp).gamma = inp.savedArgs.gamma ∧
      (effectiveArgs inp).maskgen = inp.savedArgs.maskgen ∧
      (effectiveArgs inp).gp_lambda = inp.savedArgs.gp_lambda ∧
      (effectiveArgs inp).n_critic = inp.savedArgs.n_critic ∧
      (effectiveArgs inp).n_latent = inp.savedArgs.n_latent) ∧
    (truthy inp.cmdArgs.resume = false →
      effectiveArgs inp = inp.cmdArgs) := by
  constructor
  · intro h
    simp [effectiveArgs, h, applyCheckpointArgs]
  · intro h
    simp [effectiveArgs, h]

/-- Witness for C4: the resuming invocation takes the saved epoch 7
but keeps its own resume path; the default invocation keeps its
args. -/
theorem c4_witness :
    (effectiveArgs inpResume).epoch = 7 ∧
    (effectiveArgs inpResume).resume = some "results/celeba/run1" ∧
    effectiveArgs inpDefault = inpDefault.cmdArgs := by
  have h1 := (c4_resume_overwrites_all_but_resume inpResume).1 (by decide)
  have h2 := (c4_resume_overwrites_all_but_resume inpDefault).2 (by decide)
  exact ⟨h1.2.2.2.1.trans (by decide), h1.1.trans (by decide), h2⟩

/-- Bridge between the assertion condition of line 78 and its
propositional reading. -/
theorem assert_cond_false (a : Args)
    (h : ¬ (a.imputeronly = true ∧ a.pretrain = none)) :
    ¬ ((a.imputeronly && a.pretrain.isNone) = true) := by
  simp only [Bool.and_eq_true, Option.isNone_iff_eq_none]
  exact fun hc => h ⟨hc.1, hc.2⟩

/-- When not resuming and the pre-dataset steps pass, the run prints
the output directory `results/celeba/<run name>`. -/
theorem mainRun_prints_output_dir (inp : MainInputs)
    (h : truthy inp.cmdArgs.resume = false)
    (h1 : ¬ (((effectiveArgs inp).imputeronly
      && (effectiveArgs inp).pretrain.isNone) = true))
    (hs : HardSigmoidArg)
    (hhs : hardSigmoidOf (effectiveArgs inp).maskgen = some hs)
    (m : String)
    (hm : maskStrOf inp.gfmt (effectiveArgs inp).mask (effectiveArgs inp).obs_prob
      (effectiveArgs inp).obs_prob_high (blockLenOpt (effectiveArgs inp).block_len)
      = some m) :
    Event.printed ("results/celeba/" ++
      pathOf inp.gfmt (effectiveArgs inp).prefix_ inp.timestamp
        (effectiveArgs inp).tau (effectiveArgs inp).alpha (effectiveArgs inp).beta
        (effectiveArgs inp).gamma (effectiveArgs inp).maskgen m)
      ∈ (mainRun inp).1 := by
  simp only [mainRun, h, if_neg h1, hhs, hm, Bool.false_eq_true, if_false]
  split
  · simp
  · simp

/-- C5: the run name equals
prefix, timestamp, `tau_<tau>`, `maskgen_<maskgen>`,
`coef_<alpha>_<beta>_<gamma>` and the mask string, joined with
underscores, where the mask string is `indep_<obs_prob>` or
`indep_<obs_prob>_<obs_prob_high>` for an `indep` mask,
`block_<block_len>` for a `block` mask with nonzero length and
`block_varsize` at length 0 (here `<q>` stands for the `%g` rendering
`g q`); when not resuming, the printed output directory is
`results/celeba/` followed by this run name. -/
theorem c5_run_name (g : Rat → String) (p ts : String)
    (tau alpha beta gamma op hi : Rat) (oph : Option Rat) (mg mstr : String)
    (bl : Int) (inp : MainInputs) :
    pathOf g p ts tau alpha beta gamma mg mstr =
      p ++ "_" ++ ts ++ "_" ++ "tau_" ++ g tau ++ "_" ++ "maskgen_" ++ mg ++ "_" ++
        "coef_" ++ g alpha ++ "_" ++ g beta ++ "_" ++ g gamma ++ "_" ++ mstr ∧
    maskStrOf g "indep" op none (blockLenOpt bl) = some ("indep_" ++ g op) ∧
    maskStrOf g "indep" op (some hi) (blockLenOpt bl) =
      some ("indep_" ++ g op ++ "_" ++ g hi) ∧
    (bl ≠ 0 → maskStrOf g "block" op oph (blockLenOpt bl) =
      some ("block_" ++ toString bl)) ∧
    maskStrOf g "block" op oph (blockLenOpt 0) = some "block_varsize" ∧
    (truthy inp.cmdArgs.resume = false →
      ¬ ((effectiveArgs inp).imputeronly = true ∧ (effectiveArgs inp).pretrain = none) →
      ∀ hs, hardSigmoidOf (effectiveArgs inp).maskgen = some hs →
      ∀ m, maskStrOf inp.gfmt (effectiveArgs inp).mask (effectiveArgs inp).obs_prob
          (effectiveArgs inp).obs_prob_high (blockLenOpt (effectiveArgs inp).block_len)
          = some m →
      Event.printed ("results/celeba/" ++
        pathOf inp.gfmt (effectiveArgs inp).prefix_ inp.timestamp
          (effectiveArgs inp).tau (effectiveArgs inp).alpha (effectiveArgs inp).beta
          (effectiveArgs inp).gamma (effectiveArgs inp).maskgen m)
        ∈ (mainRun inp).1) := by
  refine ⟨?_, ?_, ?_, ?_, ?_, ?_⟩
  · simp only [pathOf, joinUnderscore, String.append_assoc]
  · simp [maskStrOf]
  · simp [maskStrOf]
  · intro hbl
    simp [maskStrOf, blockLenOpt, blockLenStr, hbl]
  · simp [maskStrOf, blockLenOpt, blockLenStr]
  · intro h hassert hs hhs m hm
    exact mainRun_prints_output_dir inp h
      (assert_cond_false _ hassert) hs hhs m hm

/-- Witness for C5: the all-defaults run (mask `block`, length 48)
prints `results/celeba/` followed by the run name ending in
`block_48`, and the `indep` mask-string case evaluates as stated. -/
theorem c5_witness :
    Event.printed ("results/celeba/" ++
      pathOf inpDefault.gfmt (effectiveArgs inpDefault).prefix_ inpDefault.timestamp
        (effectiveArgs inpDefault).tau (effectiveArgs inpDefault).alpha
        (effectiveArgs inpDefault).beta (effectiveArgs inpDefault).gamma
        (effectiveArgs inpDefault).maskgen "block_48")
      ∈ (mainRun inpDefault).1 ∧
    maskStrOf gZero "indep" (8/10) none (blockLenOpt 48) =
      some ("indep_" ++ gZero (8/10)) := by
  have h := c5_run_name gZero "impute" "0101.000000" (1/2) (1/10) (1/10) 0 (8/10)
    (9/10) none "fusion" "block_48" 48 inpDefault
  exact ⟨h.2.2.2.2.2 (by decide) (by decide) hsSample rfl "block_48" rfl, h.2.1⟩

/-- The maskgen dispatch fails exactly on unrecognised values. -/
theorem hardSigmoidOf_eq_none_iff (mg : String) :
    hardSigmoidOf mg = none ↔ mg ∉ ["sigmoid", "hardsigmoid", "fusion"] := by
  unfold hardSigmoidOf
  by_cases h1 : mg = "sigmoid"
  · simp [h1]
  · by_cases h2 : mg = "hardsigmoid"
    · simp [h2]
    · by_cases h3 : mg = "fusion"
      · simp [h3]
      · simp [h1, h2, h3]

/-- The mask dispatch fails exactly on unrecognised values. -/
theorem maskStrOf_eq_none_iff (g : Rat → String) (mask : String) (op : Rat)
    (oph : Option Rat) (bl : Option Int) :
    maskStrOf g mask op oph bl = none ↔ mask ∉ ["indep", "block"] := by
  unfold maskStrOf
  by_cases h1 : mask = "indep"
  · subst h1
    cases oph <;> simp
  · by_cases h2 : mask = "block"
    · simp [h2]
    · simp [h1, h2]

/-- An unrecognised maskgen raises `NotImplementedError` (once the
assertion has passed). -/
theorem mainRun_nie_of_bad_maskgen (inp : MainInputs)
    (h1 : ¬ (((effectiveArgs inp).imputeronly
      && (effectiveArgs inp).pretrain.isNone) = true))
    (hmg : hardSigmoidOf (effectiveArgs inp).maskgen = none) :
    (mainRun inp).2 = some PyError.notImplementedError := by
  simp only [mainRun, if_neg h1, hmg]

/-- An unrecognised mask raises `NotImplementedError` (once the
assertion and the maskgen dispatch have passed). -/
theorem mainRun_nie_of_bad_mask (inp : MainInputs)
    (h1 : ¬ (((effectiveArgs inp).imputeronly
      && (effectiveArgs inp).pretrain.isNone) = true))
    (hs : HardSigmoidArg)
    (hhs : hardSigmoidOf (effectiveArgs inp).maskgen = some hs)
    (hm : maskStrOf inp.gfmt (effectiveArgs inp).mask (effectiveArgs inp).obs_prob
      (effectiveArgs inp).obs_prob_high (blockLenOpt (effectiveArgs inp).block_len)
      = none) :
    (mainRun inp).2 = some PyError.notImplementedError := by
  simp only [mainRun, if_neg h1, hhs, hm]

/-- C7 counterexample: with `--imputeronly` set, no `--pretrain`, and
the unrecognised maskgen `foo`, `main` raises `AssertionError`, not
`NotImplementedError`, even though the maskgen is not one of the
recognised values: the claimed equivalence fails. -/
theorem c7_counterexample :
    (effectiveArgs inpC7).maskgen ∉ ["sigmoid", "hardsigmoid", "fusion"] ∧
    (mainRun inpC7).2 = some PyError.assertionError ∧
    (mainRun inpC7).2 ≠ some PyError.notImplementedError := by
  refine ⟨by decide, rfl, ?_⟩
  intro hc
  rw [show (mainRun inpC7).2 = some PyError.assertionError from rfl] at hc
  exact PyError.noConfusion (Option.some.inj hc)

/-- C7 (amended): provided the imputeronly assertion does not fire
(`args.imputeronly` is unset or `args.pretrain` is given), `main`
raises `NotImplementedError` if and only if `args.maskgen` is not one
of `sigmoid`, `hardsigmoid`, `fusion` or `args.mask` is not one of
`indep`, `block`; in either error case the exception is raised before
any neural-network module or dataset is constructed; and the
hard-sigmoid value is `False` for `sigmoid`, `True` for
`hardsigmoid`, and the pair `(-0.1, 1.1)` for `fusion`. -/
theorem c7_amended_nie_iff (inp : MainInputs)
    (h : ¬ ((effectiveArgs inp).imputeronly = true ∧ (effectiveArgs inp).pretrain = none)) :
    ((mainRun inp).2 = some PyError.notImplementedError ↔
      ((effectiveArgs inp).maskgen ∉ ["sigmoid", "hardsigmoid", "fusion"] ∨
       (effectiveArgs inp).mask ∉ ["indep", "block"])) ∧
    ((mainRun inp).2 = some PyError.notImplementedError →
      (∀ m : NNModule, Event.moduleConstructed m ∉ (mainRun inp).1) ∧
      (∀ d : Dataset, Event.datasetConstructed d ∉ (mainRun inp).1)) ∧
    hardSigmoidOf "sigmoid" = some (HardSigmoidArg.ofBool false) ∧
    hardSigmoidOf "hardsigmoid" = some (HardSigmoidArg.ofBool true) ∧
    hardSigmoidOf "fusion" = some (HardSigmoidArg.ofPair (-(1/10)) (11/10)) := by
  have hassert := assert_cond_false _ h
  refine ⟨⟨?_, ?_⟩, ?_, rfl, rfl, rfl⟩
  · intro hnie
    by_contra hcon
    push_neg at hcon
    obtain ⟨hmg, hm⟩ := hcon
    have hne := mainRun_name_error inp h hmg hm
    rw [hne] at hnie
    exact PyError.noConfusion (Option.some.inj hnie)
  · intro hor
    rcases hc : hardSigmoidOf (effectiveArgs inp).maskgen with _ | hs
    · exact mainRun_nie_of_bad_maskgen inp hassert hc
    · rcases hor with hbad | hbad
      · rw [← hardSigmoidOf_eq_none_iff] at hbad
        rw [hbad] at hc
        exact Option.noConfusion hc
      · have hmnone : maskStrOf inp.gfmt (effectiveArgs inp).mask
            (effectiveArgs inp).obs_prob (effectiveArgs inp).obs_prob_high
            (blockLenOpt (effectiveArgs inp).block_len) = none :=
          (maskStrOf_eq_none_iff _ _ _ _ _).mpr hbad
        exact mainRun_nie_of_bad_mask inp hassert hs hc hmnone
  · intro _
    constructor
    · intro m hm
      have hmc := (mainRun_no_construction inp _ hm).1
      simp [isModuleConstructed] at hmc
    · intro d hd
      exact (mainRun_no_construction inp _ hd).2.2 d rfl

/-- Witness for C7's amended claim: the unrecognised maskgen `foo`
(with the assertion passing) raises `NotImplementedError`, while the
all-defaults invocation does not. -/
theorem c7_witness :
    (mainRun inpBadMaskgen).2 = some PyError.notImplementedError ∧
    (mainRun inpDefault).2 ≠ some PyError.notImplementedError := by
  have hb := c7_amended_nie_iff inpBadMaskgen (by decide)
  have hd := c7_amended_nie_iff inpDefault (by decide)
  refine ⟨hb.1.mpr (Or.inl (by decide)), fun hc => ?_⟩
  rcases hd.1.mp hc with hbad | hbad
  · exact hbad (by decide)
  · exact hbad (by decide)

end MISGan
